import Mathlib

/-!
Shallow embedding of the uptime-kuma-agent core (configuration merge,
metric default resolution, reconciliation of monitors against a remote
snapshot, Telegraf drop-in derivation, and the one-shot push-metric
threshold logic), together with theorems settling the frozen claims.

Go `float64` threshold values are modelled as `Rat`: the source only
stores, compares (`>`, `==`) and copies these values, never performs
arithmetic on them, so any linearly ordered field models them faithfully.
Go slices are modelled as `List` (the nil slice and the empty slice are
identified). Go maps built by iterating a slice are modelled as lookups
into the original list with last-entry-wins semantics.
-/

deriving instance DecidableEq for Except

namespace UptimeKumaAgent

-- Model of `config.LoggingConfig` is omitted: no claim depends on it.

/-- Model of `config.ThresholdConfig`. -/
structure ThresholdConfig where
  cpu : Rat
  ram : Rat
  disk : Rat
deriving DecidableEq

/-- Model of `config.AgentConfig` (logging sub-config omitted, unused by claims). -/
structure AgentConfig where
  useOutputsDiscard : Option Bool
  dockerImage : String
deriving DecidableEq

/-- Model of `config.GroupConfig`. -/
structure GroupConfig where
  name : String
  description : Option String
  notificationNames : List String
deriving DecidableEq

/-- Model of `config.MonitorConfig`. -/
structure MonitorConfig where
  type : String
  name : String
  group : String
  description : Option String
  notificationNames : List String
  url : String
  threshold : Rat
  metric : String
  field : String
  filesystem : String
  containerName : String
  pushToken : String
deriving DecidableEq

/-- Model of `config.Config` (the merged / effective configuration). -/
structure Config where
  version : String
  uptimeKumaURL : String
  username : String
  password : String
  groups : List GroupConfig
  interval : Int
  maxRetries : Int
  globalThresholds : ThresholdConfig
  agent : AgentConfig
  pushMonitors : List MonitorConfig
  httpMonitors : List MonitorConfig
  monitors : List MonitorConfig
deriving DecidableEq

/-- A monitor entry with every field at its Go zero value. -/
def MonitorConfig.zero : MonitorConfig :=
  { type := "", name := "", group := "", description := none,
    notificationNames := [], url := "", threshold := 0, metric := "",
    field := "", filesystem := "", containerName := "", pushToken := "" }

/-- A configuration with every field at its Go zero value. -/
def Config.zero : Config :=
  { version := "", uptimeKumaURL := "", username := "", password := "",
    groups := [], interval := 0, maxRetries := 0,
    globalThresholds := { cpu := 0, ram := 0, disk := 0 },
    agent := { useOutputsDiscard := none, dockerImage := "" },
    pushMonitors := [], httpMonitors := [], monitors := [] }

/-- The `m.Name + "|" + m.Group` identity key used by `mergeConfigs` and
`deduplicateMonitors` for push/HTTP monitor lists. -/
def monitorKey (m : MonitorConfig) : String := m.name ++ "|" ++ m.group

/-- One step of the push/HTTP monitor merge loop of `mergeConfigs`: the Go code
seeds a key map from the accumulated list and appends an entry exactly when its
key is absent, recording the key; checking the keys of the accumulator list is
equivalent. -/
def appendDedupMonitors (base add : List MonitorConfig) : List MonitorConfig :=
  add.foldl
    (fun acc m => if acc.any (fun x => monitorKey x == monitorKey m) then acc else acc ++ [m])
    base

/-- The group merge loop of `mergeConfigs` (dedupe by name). -/
def appendDedupGroups (base add : List GroupConfig) : List GroupConfig :=
  add.foldl
    (fun acc g => if acc.any (fun x => x.name == g.name) then acc else acc ++ [g])
    base

/-- The legacy-monitor merge loop of `mergeConfigs` (dedupe by name only). -/
def appendDedupLegacy (base add : List MonitorConfig) : List MonitorConfig :=
  add.foldl
    (fun acc m => if acc.any (fun x => x.name == m.name) then acc else acc ++ [m])
    base

/-- Model of `config.mergeConfigs`. -/
def mergeConfigs (base add : Config) : Config :=
  { version := base.version
    uptimeKumaURL := if add.uptimeKumaURL ≠ "" then add.uptimeKumaURL else base.uptimeKumaURL
    username := if add.username ≠ "" then add.username else base.username
    password := if add.password ≠ "" then add.password else base.password
    interval := if 0 < add.interval then add.interval else base.interval
    maxRetries := if 0 < add.maxRetries then add.maxRetries else base.maxRetries
    agent :=
      { useOutputsDiscard :=
          if add.agent.useOutputsDiscard.isSome then add.agent.useOutputsDiscard
          else base.agent.useOutputsDiscard
        dockerImage :=
          if add.agent.dockerImage ≠ "" then add.agent.dockerImage else base.agent.dockerImage }
    globalThresholds :=
      { cpu := if 0 < add.globalThresholds.cpu then add.globalThresholds.cpu
               else base.globalThresholds.cpu
        ram := if 0 < add.globalThresholds.ram then add.globalThresholds.ram
               else base.globalThresholds.ram
        disk := if 0 < add.globalThresholds.disk then add.globalThresholds.disk
                else base.globalThresholds.disk }
    groups := appendDedupGroups base.groups add.groups
    pushMonitors := appendDedupMonitors base.pushMonitors add.pushMonitors
    httpMonitors := appendDedupMonitors base.httpMonitors add.httpMonitors
    monitors := appendDedupLegacy base.monitors add.monitors }

/-- Folding a list of supplementary fragments onto a base configuration, as
`LoadMergedConfig` does after sorting the fragment file names. -/
def mergeAll (base : Config) (frags : List Config) : Config :=
  frags.foldl mergeConfigs base

/-- The push/HTTP half of `Config.deduplicateMonitors` (applied by `SaveConfig`):
keep the first entry for each `name|group` key. -/
def dedupMonitorList (l : List MonitorConfig) : List MonitorConfig :=
  l.foldl
    (fun acc m => if acc.any (fun x => monitorKey x == monitorKey m) then acc else acc ++ [m])
    []

/-- Model of Go `strings.Contains s sub`. -/
def goContains (s sub : String) : Bool := decide (sub.toList <:+: s.toList)

/-- ASCII model of Go `strings.ToLower` (per-character lower-casing; the
claims only exercise ASCII names, and no proof depends on the mapping of
non-ASCII letters). Implemented character-wise so that it reduces inside the
kernel. -/
def goCharToLower (c : Char) : Char :=
  if 65 ≤ c.toNat ∧ c.toNat ≤ 90 then Char.ofNat (c.toNat + 32) else c

/-- Model of Go `strings.ToLower` on a whole string. -/
def goToLower (s : String) : String := String.mk (s.toList.map goCharToLower)

/-- ASCII whitespace, as tested by Go `unicode.IsSpace` on ASCII input. -/
def goIsSpace (c : Char) : Bool :=
  c == ' ' || c == Char.ofNat 9 || c == Char.ofNat 10 || c == Char.ofNat 11 ||
    c == Char.ofNat 12 || c == Char.ofNat 13

/-- Model of Go `strings.TrimSpace`. -/
def goTrimSpace (s : String) : String :=
  String.mk (((s.toList.dropWhile goIsSpace).reverse.dropWhile goIsSpace).reverse)

/-- The name-heuristic half of `MonitorConfig.ResolveMetrics` (everything before
the threshold default switch). The source's sequence of in-place mutations is
flattened into one conditional per reachable combination of the guards; each
leaf shows the fields the Go code has assigned on that path. -/
def resolveKind (m : MonitorConfig) : MonitorConfig :=
  if m.metric = "" then
    if goContains (goToLower m.name) "cpu" then
      if m.field = "" then { m with metric := "cpu", field := "usage_user" }
      else { m with metric := "cpu" }
    else if goContains (goToLower m.name) "ram" || goContains (goToLower m.name) "mem" then
      if m.field = "" then { m with metric := "mem", field := "used_percent" }
      else { m with metric := "mem" }
    else if goContains (goToLower m.name) "disk" then
      if m.field = "" then
        if m.filesystem = "" then
          if goContains (goToLower m.name) "root" then
            { m with metric := "disk", field := "used_percent", filesystem := "/" }
          else if goContains (goToLower m.name) "data" then
            { m with
                metric := "disk", field := "used_percent",
                filesystem := "/mnt/data/uptime-kuma-test" }
          else { m with metric := "disk", field := "used_percent" }
        else { m with metric := "disk", field := "used_percent" }
      else
        if m.filesystem = "" then
          if goContains (goToLower m.name) "root" then
            { m with metric := "disk", filesystem := "/" }
          else if goContains (goToLower m.name) "data" then
            { m with metric := "disk", filesystem := "/mnt/data/uptime-kuma-test" }
          else { m with metric := "disk" }
        else { m with metric := "disk" }
    else m
  else m

/-- The threshold chosen by the `switch m.Metric` in `ResolveMetrics` when the
stored threshold is zero. -/
def defaultThreshold (cfg : Config) (metric : String) : Rat :=
  if metric = "cpu" ∨ metric = "docker_container_cpu" then
    if 0 < cfg.globalThresholds.cpu then cfg.globalThresholds.cpu else 90
  else if metric = "mem" then
    if 0 < cfg.globalThresholds.ram then cfg.globalThresholds.ram else 90
  else if metric = "disk" then
    if 0 < cfg.globalThresholds.disk then cfg.globalThresholds.disk else 85
  else 90

/-- The threshold-defaulting half of `ResolveMetrics`. -/
def resolveThreshold (cfg : Config) (m : MonitorConfig) : MonitorConfig :=
  if m.threshold = 0 then { m with threshold := defaultThreshold cfg m.metric } else m

/-- Model of `MonitorConfig.ResolveMetrics` (the in-place mutation is modelled
as returning the updated entry). -/
def ResolveMetrics (cfg : Config) (m : MonitorConfig) : MonitorConfig :=
  resolveThreshold cfg (resolveKind m)

/-- Model of `Config.GetAllMonitors`. -/
def GetAllMonitors (c : Config) : List MonitorConfig :=
  (c.pushMonitors.map (fun m => { m with type := "push" })) ++
    (c.httpMonitors.map (fun m => { m with type := "http" })) ++ c.monitors

/-- A character matched by the Go regex character class `[a-zA-Z0-9_-]`
(the complement of `invalidChars`). -/
def goValidChar (c : Char) : Bool :=
  (decide (Char.ofNat 97 ≤ c) && decide (c ≤ Char.ofNat 122)) ||
  (decide (Char.ofNat 65 ≤ c) && decide (c ≤ Char.ofNat 90)) ||
  (decide (Char.ofNat 48 ≤ c) && decide (c ≤ Char.ofNat 57)) ||
  c == Char.ofNat 95 || c == Char.ofNat 45

/-- Effect of `invalidChars.ReplaceAllString name "-"`: every maximal run of
characters outside `[a-zA-Z0-9_-]` becomes a single hyphen. The flag records
whether the previous character belonged to such a run. -/
def replaceInvalidRuns : List Char → Bool → List Char
  | [], _ => []
  | c :: cs, inRun =>
    if goValidChar c then c :: replaceInvalidRuns cs false
    else if inRun then replaceInvalidRuns cs true
    else Char.ofNat 45 :: replaceInvalidRuns cs true

/-- Effect of `multipleHyphens.ReplaceAllString name "-"`: collapse every run
of hyphens to a single hyphen. -/
def collapseHyphenRuns : List Char → Bool → List Char
  | [], _ => []
  | c :: cs, prevHyphen =>
    if c == Char.ofNat 45 then
      if prevHyphen then collapseHyphenRuns cs true
      else Char.ofNat 45 :: collapseHyphenRuns cs true
    else c :: collapseHyphenRuns cs false

/-- Effect of `strings.Trim name "-"`. -/
def trimHyphens (l : List Char) : List Char :=
  ((l.dropWhile (fun c => c == Char.ofNat 45)).reverse.dropWhile
    (fun c => c == Char.ofNat 45)).reverse

/-- Model of `provision.SanitizeFilename`. After lower-casing and invalid-run
replacement every remaining character is single-byte ASCII, so the Go byte
truncation `name[:50]` is the 50-character prefix. -/
def SanitizeFilename (name : String) : String :=
  let l := (goToLower name).toList
  let l := replaceInvalidRuns l false
  let l := collapseHyphenRuns l false
  let l := l.take 50
  let l := trimHyphens l
  let s := String.mk l
  if s = "" then "monitor" else s

/-- The file-name component computed inside `telegraf.GenerateTelegrafConfigs`
for each push-monitor output file:
`strings.ToLower(strings.ReplaceAll(m.Name, " ", "-"))`. -/
def telegrafSafeName (name : String) : String :=
  goToLower (String.mk (name.toList.map (fun c => if c == ' ' then Char.ofNat 45 else c)))

/-- Model of the remote `monitor.Base` (fields the agent reads/writes). -/
structure RemoteBase where
  id : Int
  name : String
  parent : Option Int
  description : Option String
  notificationIDs : List Int
deriving DecidableEq

/-- Model of the remote `monitor.Push` detail (base plus push token). -/
structure RemotePush where
  base : RemoteBase
  pushToken : String
deriving DecidableEq

/-- Model of the remote `monitor.HTTP` detail (base plus URL; the other HTTP
fields are never read on the update path). -/
structure RemoteHTTP where
  base : RemoteBase
  url : String
deriving DecidableEq

/-- A snapshot of the remote service as observed during one run: the
`GetMonitors` result plus oracles for the `GetMonitorAs` detail fetches and
the `GetNotifications` list. A monitor id absent from a detail list models a
failing `GetMonitorAs` call. -/
structure RemoteState where
  monitors : List RemoteBase
  pushDetails : List RemotePush
  httpDetails : List RemoteHTTP
  groupDetails : List RemoteBase
  notifications : List (String × Int)
deriving DecidableEq

/-- Lookup in the `existingByName` map: Go builds it by iterating the monitor
slice, so for duplicate names the last entry wins. -/
def lookupByName (ms : List RemoteBase) (n : String) : Option RemoteBase :=
  (ms.filter (fun m => m.name == n)).getLast?

/-- The `name|groupID` (or `name|`) key under which `existingByNameAndGroup`
indexes a remote monitor. -/
def remoteGroupKey (m : RemoteBase) : String :=
  match m.parent with
  | some p => m.name ++ "|" ++ toString p
  | none => m.name ++ "|"

/-- Lookup in the `existingByNameAndGroup` map (last entry wins). -/
def lookupByNameAndGroup (ms : List RemoteBase) (key : String) : Option RemoteBase :=
  (ms.filter (fun m => remoteGroupKey m == key)).getLast?

/-- Model of `client.GetMonitorAs` for a push monitor: `none` models a failed
fetch. -/
def fetchPush (rs : RemoteState) (monID : Int) : Option RemotePush :=
  rs.pushDetails.find? (fun p => p.base.id == monID)

/-- Model of `client.GetMonitorAs` for an HTTP monitor. -/
def fetchHTTP (rs : RemoteState) (monID : Int) : Option RemoteHTTP :=
  rs.httpDetails.find? (fun p => p.base.id == monID)

/-- Model of `client.GetMonitorAs` for a group (a `monitor.Group` carries only
a `Base`). -/
def fetchGroup (rs : RemoteState) (monID : Int) : Option RemoteBase :=
  rs.groupDetails.find? (fun p => p.id == monID)

/-- Model of `provision.ResolveNotificationIDs`: map names to ids via the
remote notification list (map semantics: last entry wins per name), dropping
names that resolve to nothing. The Go function logs missing names and never
returns an error. -/
def resolveNotificationIDs (rs : RemoteState) (names : List String) : List Int :=
  names.foldl
    (fun acc n =>
      match (rs.notifications.filter (fun p => p.1 == n)).getLast? with
      | some p => acc ++ [p.2]
      | none => acc)
    []

/-- A remote write issued by the agent, as recorded by the embedding. Update
actions record the full mutable payload sent to `client.UpdateMonitor`,
including the push token field of the struct being sent. -/
inductive KumaAction where
  | createPush (name : String) (token : String) (parent : Option Int) (nids : List Int)
  | createHTTP (name : String) (url : String) (parent : Option Int) (nids : List Int)
  | updatePush (monID : Int) (tokenSent : String) (desc : Option String) (nids : List Int)
  | updateHTTP (monID : Int) (desc : Option String) (nids : List Int)
  | updateGroup (monID : Int) (desc : Option String) (nids : List Int)
deriving DecidableEq

/-- Whether an action is a monitor-creation call. -/
def KumaAction.isCreate : KumaAction → Bool
  | .createPush _ _ _ _ => true
  | .createHTTP _ _ _ _ => true
  | _ => false

/-- The group-update description test of `ProvisionKumaMonitor`:
`(cur == nil && want != nil) || (cur != nil && want != nil && *cur != *want)
|| (cur != nil && want == nil)`. -/
def groupDescNeedsUpdate (cur want : Option String) : Bool :=
  (cur.isNone && want.isSome) || (cur.isSome && want.isSome && cur != want) ||
    (cur.isSome && want.isNone)

/-- The group notification ids resolved from a group declaration's
notification names. -/
def groupTarget (rs : RemoteState) (g : GroupConfig) : List Int :=
  if g.notificationNames ≠ [] then resolveNotificationIDs rs g.notificationNames else []

/-- Model of the update half of the group step of `ProvisionKumaMonitor` for an
existing group: fetch the current detail (a failed fetch skips the update),
update description/notifications only when the tests fire, and issue one
update call at most. -/
def provisionGroupUpdate (rs : RemoteState) (groupID : Int) (g : GroupConfig) :
    List KumaAction :=
  let gids := groupTarget rs g
  match fetchGroup rs groupID with
  | none => []
  | some cur =>
    let p1 :=
      if groupDescNeedsUpdate cur.description g.description then
        ({ cur with description := g.description }, true)
      else (cur, false)
    let p2 :=
      if p1.1.notificationIDs ≠ gids then
        ({ p1.1 with notificationIDs := gids }, true)
      else p1
    if p2.2 then [.updateGroup groupID p2.1.description p2.1.notificationIDs] else []

/-- The push/HTTP monitor description test of `UpdateMonitorBase`:
`base.Description == nil || (mcfg.Description != nil && *base.Description != *mcfg.Description)`. -/
def descNeedsUpdate (remoteDesc desiredDesc : Option String) : Bool :=
  match remoteDesc, desiredDesc with
  | none, _ => true
  | some _, none => false
  | some d, some d2 => d != d2

/-- The `targetIDs` computed inside `UpdateMonitorBase`: the caller-supplied
group notification ids overridden by the monitor's own notification names when
any are declared. -/
def updateTarget (rs : RemoteState) (m : MonitorConfig)
    (groupNotificationIDs : List Int) : List Int :=
  if m.notificationNames ≠ [] then resolveNotificationIDs rs m.notificationNames
  else groupNotificationIDs

/-- Model of `provision.UpdateMonitorBase`. Returns the `updated` flag together
with the update calls issued; `Except.error` models the Go error returns (fetch
failure). The unsupported-type default branch logs a warning and returns `nil`,
i.e. `.ok (false, [])`. -/
def updateMonitorBase (rs : RemoteState) (monID : Int) (m : MonitorConfig)
    (groupNotificationIDs : List Int) : Except String (Bool × List KumaAction) :=
  if m.type = "push" then
    match fetchPush rs monID with
    | none => .error ("failed to fetch push monitor " ++ toString monID)
    | some push =>
      let p1 :=
        if descNeedsUpdate push.base.description m.description then
          ({ push with base := { push.base with description := m.description } }, true)
        else (push, false)
      let p2 :=
        if p1.1.base.notificationIDs ≠ updateTarget rs m groupNotificationIDs then
          ({ p1.1 with
              base := { p1.1.base with
                notificationIDs := updateTarget rs m groupNotificationIDs } }, true)
        else p1
      .ok (p2.2,
        if p2.2 then
          [.updatePush monID p2.1.pushToken p2.1.base.description p2.1.base.notificationIDs]
        else [])
  else if m.type = "http" then
    match fetchHTTP rs monID with
    | none => .error ("failed to fetch http monitor " ++ toString monID)
    | some hm =>
      let p1 :=
        if descNeedsUpdate hm.base.description m.description then
          ({ hm with base := { hm.base with description := m.description } }, true)
        else (hm, false)
      let p2 :=
        if p1.1.base.notificationIDs ≠ updateTarget rs m groupNotificationIDs then
          ({ p1.1 with
              base := { p1.1.base with
                notificationIDs := updateTarget rs m groupNotificationIDs } }, true)
        else p1
      .ok (p2.2,
        if p2.2 then [.updateHTTP monID p2.1.base.description p2.1.base.notificationIDs]
        else [])
  else
    .ok (false, [])

/-- Lookup in the `groupNameToID` map built by `ProvisionKumaMonitor`
(last entry wins, as with every Go map built by iteration). -/
def lookupGroupID (g2id : List (String × Int)) (n : String) : Option Int :=
  ((g2id.filter (fun p => p.1 == n)).getLast?).map (fun p => p.2)

/-- The outcome of processing one configured monitor inside
`ProvisionKumaMonitor`: the possibly token-updated entry, the delta this step
contributes to the run-wide `configUpdated` flag, and the remote writes
issued. -/
structure StepResult where
  mcfg : MonitorConfig
  dirty : Bool
  actions : List KumaAction
deriving DecidableEq

/-- The existing-monitor lookup block of the push/HTTP monitor loops
(textually duplicated in the source): grouped monitors match by
`name|groupID`, unknown groups fall back to name-only matching, ungrouped
monitors match by name only. -/
def pushLookup (rs : RemoteState) (g2id : List (String × Int)) (m : MonitorConfig) :
    Option RemoteBase :=
  if m.group ≠ "" then
    match lookupGroupID g2id m.group with
    | some gid => lookupByNameAndGroup rs.monitors (m.name ++ "|" ++ toString gid)
    | none => lookupByName rs.monitors m.name
  else lookupByName rs.monitors m.name

/-- Model of one iteration of the `cfg.PushMonitors` loop of
`ProvisionKumaMonitor`. `g2id` is the `groupNameToID` map built by the group
step; `newToken` stands for the random token `GeneratePushToken` would return
on the creation path; `fetchAfterCreate` is the oracle for the post-creation
`GetMonitorAs` re-fetch (`none` = fetch failed). Update-path errors from
`UpdateMonitorBase` are logged as warnings and the step continues, exactly as
in the source. -/
def provisionPushStep (rs : RemoteState) (g2id : List (String × Int)) (cfg : Config)
    (newToken : String) (fetchAfterCreate : Option RemotePush) (m0 : MonitorConfig) :
    StepResult :=
  let m := ResolveMetrics cfg { m0 with type := "push" }
  match pushLookup rs g2id m with
  | some existing =>
    let md : MonitorConfig × Bool :=
      match fetchPush rs existing.id with
      | some push =>
        if push.pushToken ≠ "" ∧ m.pushToken ≠ push.pushToken then
          ({ m with pushToken := push.pushToken }, true)
        else (m, false)
      | none => (m, false)
    let targetIDs : List Int :=
      if md.1.notificationNames ≠ [] then resolveNotificationIDs rs md.1.notificationNames
      else []
    let acts : List KumaAction :=
      match updateMonitorBase rs existing.id md.1 targetIDs with
      | .ok r => r.2
      | .error _ => []
    { mcfg := md.1, dirty := md.2, actions := acts }
  | none =>
    let nids :=
      if m.notificationNames ≠ [] then resolveNotificationIDs rs m.notificationNames else []
    let parent : Option Int :=
      if m.group ≠ "" then lookupGroupID g2id m.group
      else
        match cfg.groups with
        | [] => none
        | g :: _ => lookupGroupID g2id g.name
    let md : MonitorConfig × Bool :=
      match fetchAfterCreate with
      | some p =>
        if p.pushToken ≠ "" then ({ m with pushToken := p.pushToken }, true) else (m, false)
      | none => (m, false)
    { mcfg := md.1, dirty := md.2,
      actions := [.createPush m.name newToken parent nids] }

/-- Model of one iteration of the legacy `cfg.Monitors` loop of
`ProvisionKumaMonitor`. `Except.error` models the Go error returns that abort
the whole run. -/
def provisionLegacyStep (rs : RemoteState) (g2id : List (String × Int)) (cfg : Config)
    (newToken : String) (fetchAfterCreate : Option RemotePush) (m0 : MonitorConfig) :
    Except String StepResult :=
  let m := ResolveMetrics cfg m0
  match lookupByName rs.monitors m.name with
  | some existing =>
    let targetIDs : List Int :=
      if m.notificationNames ≠ [] then resolveNotificationIDs rs m.notificationNames else []
    let acts : List KumaAction :=
      match updateMonitorBase rs existing.id m targetIDs with
      | .ok r => r.2
      | .error _ => []
    .ok { mcfg := m, dirty := false, actions := acts }
  | none =>
    if m.url = "" ∧ m.type = "http" then
      .error ("legacy http monitor " ++ m.name ++ " missing url")
    else
      let nids :=
        if m.notificationNames ≠ [] then resolveNotificationIDs rs m.notificationNames else []
      let parent : Option Int :=
        match cfg.groups with
        | [] => none
        | g :: _ => lookupGroupID g2id g.name
      if m.type = "push" then
        let md : MonitorConfig × Bool :=
          match fetchAfterCreate with
          | some p =>
            if p.pushToken ≠ "" then ({ m with pushToken := p.pushToken }, true) else (m, false)
          | none => (m, false)
        .ok { mcfg := md.1, dirty := md.2,
              actions := [.createPush m.name newToken parent nids] }
      else if m.type = "http" then
        .ok { mcfg := m, dirty := false,
              actions := [.createHTTP m.name m.url parent nids] }
      else
        .error ("unsupported legacy type: " ++ m.type)

/-- One collector input drop-in descriptor derived by
`telegraf.GenerateTelegrafConfigs`. -/
inductive TelegrafInput where
  | cpu
  | mem
  | docker
  | disk (mountPoints : List String)
deriving DecidableEq

/-- The eligibility filter of the monitor loop in `GenerateTelegrafConfigs`
(the negation of its `continue` condition). -/
def telegrafEligible (m : MonitorConfig) : Bool :=
  m.type == "push" && m.metric != "" && m.pushToken != ""

/-- The eligible monitors, after the in-loop `m.ResolveMetrics(cfg)` call. -/
def telegrafMonitors (cfg : Config) : List MonitorConfig :=
  ((GetAllMonitors cfg).filter telegrafEligible).map (ResolveMetrics cfg)

/-- The `neededMetrics` set, as a first-seen-ordered duplicate-free list. -/
def neededMetrics (cfg : Config) : List String :=
  (telegrafMonitors cfg).foldl
    (fun acc m => if acc.contains m.metric then acc else acc ++ [m.metric]) []

/-- One iteration of the `diskMountPoints` collection loop: an eligible disk
monitor with a non-empty filesystem contributes its trimmed filesystem unless
already collected. -/
def diskStep (acc : List String) (m : MonitorConfig) : List String :=
  if m.metric == "disk" && m.filesystem != "" then
    if acc.contains (goTrimSpace m.filesystem) then acc
    else acc ++ [goTrimSpace m.filesystem]
  else acc

/-- The `diskMountPoints` collection: first-seen-ordered distinct trimmed
filesystems of eligible disk monitors with a non-empty filesystem. -/
def diskMountPoints (cfg : Config) : List String :=
  (telegrafMonitors cfg).foldl diskStep []

/-- The (untrimmed) filesystem paths of the disk monitors considered by the
drop-in derivation. -/
def diskFilesystems (cfg : Config) : List String :=
  ((telegrafMonitors cfg).filter (fun m => m.metric == "disk" && m.filesystem != "")).map
    (fun m => m.filesystem)

/-- Recognizer for the cpu input descriptor. -/
def isCpuInput : TelegrafInput → Bool
  | .cpu => true
  | _ => false

/-- Recognizer for the mem input descriptor. -/
def isMemInput : TelegrafInput → Bool
  | .mem => true
  | _ => false

/-- Recognizer for the docker input descriptor. -/
def isDockerInput : TelegrafInput → Bool
  | .docker => true
  | _ => false

/-- Recognizer for the disk input descriptor. -/
def isDiskInput : TelegrafInput → Bool
  | .disk _ => true
  | _ => false

/-- Lexicographic order on character lists by code point; on UTF-8 encoded
strings this coincides with Go's byte-wise string order used by
`sort.Strings`. -/
def charListLe : List Char → List Char → Bool
  | [], _ => true
  | _ :: _, [] => false
  | a :: as, b :: bs =>
    if a.toNat < b.toNat then true
    else if b.toNat < a.toNat then false
    else charListLe as bs

/-- String order used by `sort.Strings`. -/
def goStrLe (a b : String) : Prop := charListLe a.toList b.toList = true

instance : DecidableRel goStrLe := fun a b => by
  unfold goStrLe
  infer_instance

/-- Model of `sort.Strings` (ascending lexicographic sort; on a duplicate-free
list the sorted permutation is unique, so insertion sort coincides with Go's
sort). -/
def sortStrings (l : List String) : List String := List.insertionSort goStrLe l

/-- The input drop-in descriptors emitted by `GenerateTelegrafConfigs`:
one per needed kind, and a single disk input parameterized by the sorted
mount-point set when any disk mount point was collected. -/
def derivedInputs (cfg : Config) : List TelegrafInput :=
  (if (neededMetrics cfg).contains "cpu" then [TelegrafInput.cpu] else []) ++
  (if (neededMetrics cfg).contains "mem" then [TelegrafInput.mem] else []) ++
  (if (neededMetrics cfg).any (fun k => goContains (goToLower k) "docker") then
    [TelegrafInput.docker] else []) ++
  (if diskMountPoints cfg ≠ [] then
    [TelegrafInput.disk (sortStrings (diskMountPoints cfg))] else [])

/-- The threshold the `push-metric` command uses: the first push monitor of the
legacy `cfg.Monitors` list with the given name supplies its threshold when
positive; otherwise the hard default 90 stands. -/
def effectiveThreshold (monitors : List MonitorConfig) (name : String) : Rat :=
  match monitors.find? (fun m => m.type == "push" && m.name == name) with
  | some m => if 0 < m.threshold then m.threshold else 90
  | none => 90

/-- The status string the `push-metric` command reports for a parsed value:
`"down"` exactly when `value > threshold`. -/
def pushStatus (value threshold : Rat) : String :=
  if threshold < value then "down" else "up"

/-- A configuration fragment declaring exactly one push monitor. -/
def onePushFrag (m : MonitorConfig) : Config := { Config.zero with pushMonitors := [m] }

/-- Push-monitor entry whose name contains the key separator (`"a|b"` in group
`"c"`), used to exhibit the identity-key collision of C3. -/
def c3mA : MonitorConfig := { MonitorConfig.zero with name := "a|b", group := "c" }

/-- Push-monitor entry `"a"` in group `"b|c"`: a different `(name, group)` pair
with the same concatenated `name|group` key as `c3mA`. -/
def c3mB : MonitorConfig := { MonitorConfig.zero with name := "a", group := "b|c" }

/-- Base configuration for the C4 counterexample (interval 10). -/
def c4base : Config := { Config.zero with interval := 10 }

/-- Later fragment for the C4 counterexample: interval -5 is non-zero yet does
not override. -/
def c4add : Config := { Config.zero with interval := -5 }

/-- The push-monitor file-name input of the C7 example, `"My VM's CPU %!!"`
(built character-wise; code point 39 is the apostrophe). -/
def c7InputName : String :=
  String.mk ['M', 'y', ' ', 'V', 'M', Char.ofNat 39, 's', ' ', 'C', 'P', 'U', ' ',
    '%', '!', '!']

/-- A character inside the class `[a-z0-9_-]` promised for sanitized names. -/
def saneChar (c : Char) : Bool :=
  (decide (97 ≤ c.toNat) && decide (c.toNat ≤ 122)) ||
    (decide (48 ≤ c.toNat) && decide (c.toNat ≤ 57)) ||
    c == Char.ofNat 95 || c == Char.ofNat 45

/-- Remote state for the C2 counterexample: one push monitor (id 1) whose
remote description is nil and whose notification-id list is empty. -/
def c2rs : RemoteState :=
  { monitors := [⟨1, "M", none, none, []⟩],
    pushDetails := [⟨⟨1, "M", none, none, []⟩, "tok"⟩],
    httpDetails := [], groupDetails := [], notifications := [] }

/-- Desired configuration for the C2 counterexample: no description, no
notification names — everything already matches the remote entity. -/
def c2m : MonitorConfig := { MonitorConfig.zero with type := "push", name := "M" }

/-- Remote state for the C2 witness: a push monitor (id 2) whose description
and notification ids already equal the desired values. -/
def c2wrs : RemoteState :=
  { monitors := [],
    pushDetails := [⟨⟨2, "W", none, some "d", [5]⟩, "t2"⟩],
    httpDetails := [], groupDetails := [], notifications := [] }

/-- Desired configuration for the C2 witness (description "d", group ids
passed as [5]). -/
def c2wm : MonitorConfig :=
  { MonitorConfig.zero with type := "push", name := "W", description := some "d" }

/-- Remote state for the C9 counterexample: a monitor named "L" (id 2) exists
remotely. -/
def c9rs : RemoteState :=
  { monitors := [⟨2, "L", none, none, []⟩], pushDetails := [], httpDetails := [],
    groupDetails := [], notifications := [] }

/-- Legacy monitor of unsupported kind "tcp" for C9. -/
def c9m : MonitorConfig := { MonitorConfig.zero with type := "tcp", name := "L" }

/-- Empty remote state (no monitors at all) for the C9 witness. -/
def c9rsEmpty : RemoteState :=
  { monitors := [], pushDetails := [], httpDetails := [], groupDetails := [],
    notifications := [] }

/-- Remote state for the C1 witness: monitor "CPU" (id 7) exists under group
id 3 and its push detail carries the token "abc123". -/
def c1wrs : RemoteState :=
  { monitors := [⟨7, "CPU", some 3, none, []⟩],
    pushDetails := [⟨⟨7, "CPU", some 3, none, []⟩, "abc123"⟩],
    httpDetails := [], groupDetails := [], notifications := [] }

/-- Local push-monitor entry for the C1 witness: monitor "CPU" in group "G"
with an empty local token. -/
def c1wm : MonitorConfig := { MonitorConfig.zero with name := "CPU", group := "G" }

/-- Remote state for the C1 counterexample: the matched monitor's re-fetched
push detail carries an empty token. -/
def c1rs : RemoteState :=
  { monitors := [⟨7, "CPU", some 3, none, []⟩],
    pushDetails := [⟨⟨7, "CPU", some 3, none, []⟩, ""⟩],
    httpDetails := [], groupDetails := [], notifications := [] }

/-- Local push-monitor entry for the C1 counterexample: stored token "abc". -/
def c1m : MonitorConfig :=
  { MonitorConfig.zero with name := "CPU", group := "G", pushToken := "abc" }

/-- Configuration for the C8 witness: three push disk monitors with
filesystems "/mnt/data/uptime-kuma-test", "/", and "/" again. -/
def c8cfg : Config :=
  { Config.zero with
      pushMonitors :=
        [{ MonitorConfig.zero with
            name := "d1", metric := "disk",
            filesystem := "/mnt/data/uptime-kuma-test", pushToken := "t1" },
         { MonitorConfig.zero with
            name := "d2", metric := "disk", filesystem := "/", pushToken := "t2" },
         { MonitorConfig.zero with
            name := "d3", metric := "disk", filesystem := "/", pushToken := "t3" }] }

section ResolverLemmas

theorem resolveKind_type (m : MonitorConfig) : (resolveKind m).type = m.type := by
  unfold resolveKind
  split_ifs <;> rfl

theorem resolveKind_name (m : MonitorConfig) : (resolveKind m).name = m.name := by
  unfold resolveKind
  split_ifs <;> rfl

theorem resolveKind_group (m : MonitorConfig) : (resolveKind m).group = m.group := by
  unfold resolveKind
  split_ifs <;> rfl

theorem resolveKind_url (m : MonitorConfig) : (resolveKind m).url = m.url := by
  unfold resolveKind
  split_ifs <;> rfl

theorem resolveKind_threshold (m : MonitorConfig) :
    (resolveKind m).threshold = m.threshold := by
  unfold resolveKind
  split_ifs <;> rfl

theorem resolveKind_pushToken (m : MonitorConfig) :
    (resolveKind m).pushToken = m.pushToken := by
  unfold resolveKind
  split_ifs <;> rfl

theorem resolveKind_notificationNames (m : MonitorConfig) :
    (resolveKind m).notificationNames = m.notificationNames := by
  unfold resolveKind
  split_ifs <;> rfl

theorem resolveKind_description (m : MonitorConfig) :
    (resolveKind m).description = m.description := by
  unfold resolveKind
  split_ifs <;> rfl

theorem resolveKind_of_metric_ne (m : MonitorConfig) (h : m.metric ≠ "") :
    resolveKind m = m := by
  unfold resolveKind
  simp [h]

theorem resolveKind_cases (m : MonitorConfig) :
    resolveKind m = m ∨ (resolveKind m).metric ≠ "" := by
  unfold resolveKind
  split_ifs <;> simp_all

theorem resolveKind_field_ne (m : MonitorConfig) (h : m.field ≠ "") :
    (resolveKind m).field = m.field := by
  unfold resolveKind
  split_ifs <;> simp_all

theorem resolveKind_filesystem_ne (m : MonitorConfig) (h : m.filesystem ≠ "") :
    (resolveKind m).filesystem = m.filesystem := by
  unfold resolveKind
  split_ifs <;> simp_all

set_option maxHeartbeats 1000000 in
theorem resolveKind_threshold_update (m : MonitorConfig) (t : Rat) :
    resolveKind { m with threshold := t } = { resolveKind m with threshold := t } := by
  obtain ⟨ty, na, gr, de, nn, ur, th, me, fi, fs, cn, pt⟩ := m
  show resolveKind ⟨ty, na, gr, de, nn, ur, t, me, fi, fs, cn, pt⟩ = _
  unfold resolveKind
  dsimp only
  split_ifs <;> rfl

theorem defaultThreshold_pos (cfg : Config) (k : String) : 0 < defaultThreshold cfg k := by
  unfold defaultThreshold
  split_ifs <;> first | assumption | norm_num

theorem resolveThreshold_metric (cfg : Config) (m : MonitorConfig) :
    (resolveThreshold cfg m).metric = m.metric := by
  unfold resolveThreshold
  split_ifs <;> rfl

theorem resolveThreshold_name (cfg : Config) (m : MonitorConfig) :
    (resolveThreshold cfg m).name = m.name := by
  unfold resolveThreshold
  split_ifs <;> rfl

theorem resolveThreshold_field (cfg : Config) (m : MonitorConfig) :
    (resolveThreshold cfg m).field = m.field := by
  unfold resolveThreshold
  split_ifs <;> rfl

theorem resolveThreshold_filesystem (cfg : Config) (m : MonitorConfig) :
    (resolveThreshold cfg m).filesystem = m.filesystem := by
  unfold resolveThreshold
  split_ifs <;> rfl

theorem resolveThreshold_type (cfg : Config) (m : MonitorConfig) :
    (resolveThreshold cfg m).type = m.type := by
  unfold resolveThreshold
  split_ifs <;> rfl

theorem resolveThreshold_group (cfg : Config) (m : MonitorConfig) :
    (resolveThreshold cfg m).group = m.group := by
  unfold resolveThreshold
  split_ifs <;> rfl

theorem resolveThreshold_url (cfg : Config) (m : MonitorConfig) :
    (resolveThreshold cfg m).url = m.url := by
  unfold resolveThreshold
  split_ifs <;> rfl

theorem resolveThreshold_pushToken (cfg : Config) (m : MonitorConfig) :
    (resolveThreshold cfg m).pushToken = m.pushToken := by
  unfold resolveThreshold
  split_ifs <;> rfl

theorem resolveThreshold_notificationNames (cfg : Config) (m : MonitorConfig) :
    (resolveThreshold cfg m).notificationNames = m.notificationNames := by
  unfold resolveThreshold
  split_ifs <;> rfl

theorem resolveThreshold_description (cfg : Config) (m : MonitorConfig) :
    (resolveThreshold cfg m).description = m.description := by
  unfold resolveThreshold
  split_ifs <;> rfl

theorem resolveThreshold_ne_zero (cfg : Config) (m : MonitorConfig) :
    (resolveThreshold cfg m).threshold ≠ 0 ∨ resolveThreshold cfg m = m := by
  unfold resolveThreshold
  split_ifs with h
  · left
    simpa using (defaultThreshold_pos cfg m.metric).ne'
  · right
    rfl

theorem resolveThreshold_of_ne (cfg : Config) (m : MonitorConfig) (h : m.threshold ≠ 0) :
    resolveThreshold cfg m = m := by
  unfold resolveThreshold
  simp [h]

theorem resolveThreshold_idem (cfg : Config) (m : MonitorConfig) :
    resolveThreshold cfg (resolveThreshold cfg m) = resolveThreshold cfg m := by
  by_cases h : m.threshold = 0
  · have hd : defaultThreshold cfg m.metric ≠ 0 := (defaultThreshold_pos cfg m.metric).ne'
    simp [resolveThreshold, h, hd]
  · rw [resolveThreshold_of_ne cfg m h, resolveThreshold_of_ne cfg m h]

theorem resolveKind_resolveThreshold_comm (cfg : Config) (m : MonitorConfig)
    (hk : resolveKind m = m) :
    resolveKind (resolveThreshold cfg m) = resolveThreshold cfg m := by
  unfold resolveThreshold
  split_ifs with h0
  · rw [resolveKind_threshold_update, hk]
  · exact hk

theorem ResolveMetrics_pushToken (cfg : Config) (m : MonitorConfig) :
    (ResolveMetrics cfg m).pushToken = m.pushToken := by
  unfold ResolveMetrics
  rw [resolveThreshold_pushToken, resolveKind_pushToken]

theorem ResolveMetrics_name (cfg : Config) (m : MonitorConfig) :
    (ResolveMetrics cfg m).name = m.name := by
  unfold ResolveMetrics
  rw [resolveThreshold_name, resolveKind_name]

theorem ResolveMetrics_type (cfg : Config) (m : MonitorConfig) :
    (ResolveMetrics cfg m).type = m.type := by
  unfold ResolveMetrics
  rw [resolveThreshold_type, resolveKind_type]

theorem ResolveMetrics_group (cfg : Config) (m : MonitorConfig) :
    (ResolveMetrics cfg m).group = m.group := by
  unfold ResolveMetrics
  rw [resolveThreshold_group, resolveKind_group]

theorem ResolveMetrics_url (cfg : Config) (m : MonitorConfig) :
    (ResolveMetrics cfg m).url = m.url := by
  unfold ResolveMetrics
  rw [resolveThreshold_url, resolveKind_url]

theorem ResolveMetrics_notificationNames (cfg : Config) (m : MonitorConfig) :
    (ResolveMetrics cfg m).notificationNames = m.notificationNames := by
  unfold ResolveMetrics
  rw [resolveThreshold_notificationNames, resolveKind_notificationNames]

theorem ResolveMetrics_idem (cfg : Config) (m : MonitorConfig) :
    ResolveMetrics cfg (ResolveMetrics cfg m) = ResolveMetrics cfg m := by
  unfold ResolveMetrics
  rcases resolveKind_cases m with hk | hk
  · rw [hk, resolveKind_resolveThreshold_comm cfg m hk, resolveThreshold_idem]
  · have h1 : (resolveThreshold cfg (resolveKind m)).metric ≠ "" := by
      rw [resolveThreshold_metric]
      exact hk
    rw [resolveKind_of_metric_ne _ h1, resolveThreshold_idem]

theorem resolveThreshold_of_zero (cfg : Config) (m : MonitorConfig) (h : m.threshold = 0) :
    resolveThreshold cfg m = { m with threshold := defaultThreshold cfg m.metric } := by
  unfold resolveThreshold
  simp [h]

end ResolverLemmas

/-- C5: applying the Metric Default Resolver twice produces exactly the entry
produced by applying it once, and the resolver never overwrites a metric kind,
field, filesystem, or threshold that was already non-empty / non-zero before
resolution. -/
theorem c5_metric_resolution_idempotent (cfg : Config) (m : MonitorConfig) :
    ResolveMetrics cfg (ResolveMetrics cfg m) = ResolveMetrics cfg m
    ∧ (m.metric ≠ "" → (ResolveMetrics cfg m).metric = m.metric)
    ∧ (m.field ≠ "" → (ResolveMetrics cfg m).field = m.field)
    ∧ (m.filesystem ≠ "" → (ResolveMetrics cfg m).filesystem = m.filesystem)
    ∧ (m.threshold ≠ 0 → (ResolveMetrics cfg m).threshold = m.threshold) := by
  refine ⟨ResolveMetrics_idem cfg m, ?_, ?_, ?_, ?_⟩
  · intro h
    unfold ResolveMetrics
    rw [resolveThreshold_metric, resolveKind_of_metric_ne m h]
  · intro h
    unfold ResolveMetrics
    rw [resolveThreshold_field, resolveKind_field_ne m h]
  · intro h
    unfold ResolveMetrics
    rw [resolveThreshold_filesystem, resolveKind_filesystem_ne m h]
  · intro h
    have hk : (resolveKind m).threshold ≠ 0 := by
      rw [resolveKind_threshold]
      exact h
    unfold ResolveMetrics
    rw [resolveThreshold_of_ne cfg _ hk, resolveKind_threshold]

/-- Concrete witness for `c5_metric_resolution_idempotent`: a fully
user-specified entry is left entirely unchanged twice over. -/
theorem c5_metric_resolution_idempotent_witness :
    (let m : MonitorConfig :=
      { MonitorConfig.zero with
          name := "CPU", metric := "mem", field := "f", filesystem := "/", threshold := 5 }
     m.metric ≠ "" ∧ m.field ≠ "" ∧ m.filesystem ≠ "" ∧ m.threshold ≠ 0 ∧
     ResolveMetrics Config.zero (ResolveMetrics Config.zero m) = ResolveMetrics Config.zero m ∧
     (ResolveMetrics Config.zero m).metric = m.metric ∧
     (ResolveMetrics Config.zero m).field = m.field ∧
     (ResolveMetrics Config.zero m).filesystem = m.filesystem ∧
     (ResolveMetrics Config.zero m).threshold = m.threshold) := by
  refine ⟨by decide, by decide, by decide, by decide, ?_, ?_, ?_, ?_, ?_⟩
  · exact (c5_metric_resolution_idempotent Config.zero _).1
  · exact (c5_metric_resolution_idempotent Config.zero _).2.1 (by decide)
  · exact (c5_metric_resolution_idempotent Config.zero _).2.2.1 (by decide)
  · exact (c5_metric_resolution_idempotent Config.zero _).2.2.2.1 (by decide)
  · exact (c5_metric_resolution_idempotent Config.zero _).2.2.2.2 (by decide)

/-- C6: when the stored threshold is zero, the resolver assigns the global
threshold of the resolved kind when positive (cpu-like kinds use the CPU
global, mem the RAM global, disk the Disk global) and otherwise the hard
default 90 (85 for disk); a monitor named "CPU" with empty metric and no
globals ends up with kind cpu, field usage_user, threshold 90. -/
theorem c6_threshold_defaults (cfg : Config) (m : MonitorConfig) (h : m.threshold = 0) :
    (((ResolveMetrics cfg m).metric = "cpu" ∨
        (ResolveMetrics cfg m).metric = "docker_container_cpu") →
      (ResolveMetrics cfg m).threshold =
        (if 0 < cfg.globalThresholds.cpu then cfg.globalThresholds.cpu else 90))
    ∧ ((ResolveMetrics cfg m).metric = "mem" →
      (ResolveMetrics cfg m).threshold =
        (if 0 < cfg.globalThresholds.ram then cfg.globalThresholds.ram else 90))
    ∧ ((ResolveMetrics cfg m).metric = "disk" →
      (ResolveMetrics cfg m).threshold =
        (if 0 < cfg.globalThresholds.disk then cfg.globalThresholds.disk else 85))
    ∧ ResolveMetrics Config.zero { MonitorConfig.zero with name := "CPU" } =
      { MonitorConfig.zero with
          name := "CPU", metric := "cpu", field := "usage_user", threshold := 90 } := by
  have hk : (resolveKind m).threshold = 0 := by
    rw [resolveKind_threshold]
    exact h
  have hRM : ResolveMetrics cfg m =
      { resolveKind m with threshold := defaultThreshold cfg (resolveKind m).metric } := by
    unfold ResolveMetrics
    rw [resolveThreshold_of_zero cfg _ hk]
  refine ⟨?_, ?_, ?_, by decide⟩
  · intro hcpu
    rw [hRM] at hcpu ⊢
    dsimp at hcpu ⊢
    unfold defaultThreshold
    rw [if_pos hcpu]
  · intro hmem
    rw [hRM] at hmem ⊢
    dsimp at hmem ⊢
    rw [hmem]
    unfold defaultThreshold
    simp
  · intro hdisk
    rw [hRM] at hdisk ⊢
    dsimp at hdisk ⊢
    rw [hdisk]
    unfold defaultThreshold
    simp

/-- Concrete witness for `c6_threshold_defaults`: a disk monitor with a
configured Disk global of 70 adopts it; the claim's "CPU" example is part of
the theorem itself. -/
theorem c6_threshold_defaults_witness :
    (let cfg : Config :=
      { Config.zero with globalThresholds := { cpu := 0, ram := 0, disk := 70 } }
     let m : MonitorConfig := { MonitorConfig.zero with name := "root disk" }
     m.threshold = 0 ∧ (ResolveMetrics cfg m).metric = "disk" ∧
     (ResolveMetrics cfg m).threshold =
       (if 0 < cfg.globalThresholds.disk then cfg.globalThresholds.disk else 85)) := by
  refine ⟨by decide, by decide, ?_⟩
  exact (c6_threshold_defaults _ _ (by decide)).2.2.1 (by decide)

section UpdateLemmas

theorem descNeedsUpdate_eq_false_iff (r d : Option String) :
    descNeedsUpdate r d = false ↔ r.isSome ∧ (d.isSome → d = r) := by
  cases r
  all_goals cases d
  all_goals simp [descNeedsUpdate]
  all_goals tauto

theorem descNeedsUpdate_eq_true_iff (r d : Option String) :
    descNeedsUpdate r d = true ↔ r = none ∨ (d.isSome ∧ d ≠ r) := by
  cases r
  all_goals cases d
  all_goals simp [descNeedsUpdate]
  all_goals tauto

/-- Characterization of the push branch of `UpdateMonitorBase` when the detail
fetch succeeds: an update call is issued exactly when the description test
fires or the notification-id lists differ, and the call carries the re-fetched
remote push token, the chosen description, and the target notification ids. -/
theorem updateMonitorBase_push_spec (rs : RemoteState) (monID : Int) (m : MonitorConfig)
    (gids : List Int) (push : RemotePush) (htype : m.type = "push")
    (hfetch : fetchPush rs monID = some push) :
    updateMonitorBase rs monID m gids =
      (if descNeedsUpdate push.base.description m.description ∨
          push.base.notificationIDs ≠ updateTarget rs m gids then
        Except.ok (true, [KumaAction.updatePush monID push.pushToken
          (if descNeedsUpdate push.base.description m.description then m.description
           else push.base.description)
          (updateTarget rs m gids)])
      else Except.ok (false, [])) := by
  unfold updateMonitorBase
  rw [htype, hfetch]
  simp only [if_pos rfl]
  cases hdesc : descNeedsUpdate push.base.description m.description
  all_goals by_cases hn : push.base.notificationIDs = updateTarget rs m gids
  all_goals simp [hdesc, hn]

/-- Characterization of the http branch of `UpdateMonitorBase` when the detail
fetch succeeds. -/
theorem updateMonitorBase_http_spec (rs : RemoteState) (monID : Int) (m : MonitorConfig)
    (gids : List Int) (hm : RemoteHTTP) (htype : m.type = "http")
    (hfetch : fetchHTTP rs monID = some hm) :
    updateMonitorBase rs monID m gids =
      (if descNeedsUpdate hm.base.description m.description ∨
          hm.base.notificationIDs ≠ updateTarget rs m gids then
        Except.ok (true, [KumaAction.updateHTTP monID
          (if descNeedsUpdate hm.base.description m.description then m.description
           else hm.base.description)
          (updateTarget rs m gids)])
      else Except.ok (false, [])) := by
  unfold updateMonitorBase
  rw [htype, hfetch]
  have hne : ("http" : String) ≠ "push" := by decide
  simp only [if_neg hne, if_pos rfl]
  cases hdesc : descNeedsUpdate hm.base.description m.description
  all_goals by_cases hn : hm.base.notificationIDs = updateTarget rs m gids
  all_goals simp [hdesc, hn]

end UpdateLemmas

/-- C3 counterexample: two fragments declaring push monitors with distinct
`(name, group)` pairs do not both survive the merge when the concatenated
`name|group` keys collide (a name containing the `"|"` separator): only the
first-seen entry remains. -/
theorem c3_counterexample_key_collision :
    (c3mA.name, c3mA.group) ≠ (c3mB.name, c3mB.group) ∧
    (mergeAll Config.zero [onePushFrag c3mA, onePushFrag c3mB]).pushMonitors = [c3mA] := by
  decide

/-- C3 (amended): a push or HTTP monitor entry from a later fragment is
appended exactly when no already-accumulated entry has the same concatenated
`name|group` string key; entries with distinct keys both survive, and two
fragments declaring entries with the identical key leave exactly one entry,
the first-seen one. (Distinct `(name, group)` pairs may still collide when a
name or group contains the `"|"` separator.) -/
theorem c3_merge_dedup_by_key (b f : Config) (mA mB m1 m2 : MonitorConfig)
    (hAB : monitorKey mA ≠ monitorKey mB) (h12 : monitorKey m1 = monitorKey m2) :
    (mergeConfigs b f).pushMonitors = appendDedupMonitors b.pushMonitors f.pushMonitors
    ∧ (mergeConfigs b f).httpMonitors = appendDedupMonitors b.httpMonitors f.httpMonitors
    ∧ (∀ acc m, appendDedupMonitors acc [m] =
        if acc.any (fun x => monitorKey x == monitorKey m) then acc else acc ++ [m])
    ∧ (mergeAll Config.zero [onePushFrag mA, onePushFrag mB]).pushMonitors = [mA, mB]
    ∧ (mergeAll Config.zero [onePushFrag m1, onePushFrag m2]).pushMonitors = [m1] := by
  refine ⟨rfl, rfl, fun acc m => rfl, ?_, ?_⟩
  · simp [mergeAll, mergeConfigs, appendDedupMonitors, onePushFrag, Config.zero,
      List.foldl_cons, List.foldl_nil, List.any_cons, List.any_nil, beq_iff_eq, hAB]
  · simp [mergeAll, mergeConfigs, appendDedupMonitors, onePushFrag, Config.zero,
      List.foldl_cons, List.foldl_nil, List.any_cons, List.any_nil, beq_iff_eq, h12]

/-- Concrete witness for `c3_merge_dedup_by_key`: distinct keys both survive,
identical keys merge to the first-seen entry. -/
theorem c3_merge_dedup_by_key_witness :
    (mergeAll Config.zero
      [onePushFrag { MonitorConfig.zero with name := "CPU", group := "G" },
       onePushFrag { MonitorConfig.zero with name := "RAM", group := "G" }]).pushMonitors =
      [{ MonitorConfig.zero with name := "CPU", group := "G" },
       { MonitorConfig.zero with name := "RAM", group := "G" }]
    ∧ (mergeAll Config.zero
      [onePushFrag { MonitorConfig.zero with name := "CPU", group := "G" },
       onePushFrag { MonitorConfig.zero with name := "CPU", group := "G" }]).pushMonitors =
      [{ MonitorConfig.zero with name := "CPU", group := "G" }] :=
  ⟨(c3_merge_dedup_by_key Config.zero Config.zero _ _
      { MonitorConfig.zero with name := "CPU", group := "G" }
      { MonitorConfig.zero with name := "CPU", group := "G" }
      (by decide) (by decide)).2.2.2.1,
   (c3_merge_dedup_by_key Config.zero Config.zero
      { MonitorConfig.zero with name := "CPU", group := "G" }
      { MonitorConfig.zero with name := "RAM", group := "G" } _ _
      (by decide) (by decide)).2.2.2.2⟩

/-- C4 counterexample: a non-zero (negative) interval in the later fragment
does not override the accumulated value — the code requires strictly positive
numeric values, not merely non-zero ones. -/
theorem c4_counterexample_negative_scalar :
    c4add.interval ≠ 0 ∧ (mergeConfigs c4base c4add).interval = c4base.interval ∧
    c4base.interval ≠ c4add.interval := by
  decide

/-- C4 (amended): string scalars from the later fragment win exactly when
non-empty; numeric scalars (interval, max retries, per-kind global thresholds)
win exactly when strictly positive; the use-discard flag wins exactly when
present (non-nil, even if false); otherwise the accumulated value is kept. -/
theorem c4_scalar_override (b a : Config) :
    (mergeConfigs b a).uptimeKumaURL =
      (if a.uptimeKumaURL ≠ "" then a.uptimeKumaURL else b.uptimeKumaURL)
    ∧ (mergeConfigs b a).username = (if a.username ≠ "" then a.username else b.username)
    ∧ (mergeConfigs b a).password = (if a.password ≠ "" then a.password else b.password)
    ∧ (mergeConfigs b a).interval = (if 0 < a.interval then a.interval else b.interval)
    ∧ (mergeConfigs b a).maxRetries = (if 0 < a.maxRetries then a.maxRetries else b.maxRetries)
    ∧ (mergeConfigs b a).agent.dockerImage =
      (if a.agent.dockerImage ≠ "" then a.agent.dockerImage else b.agent.dockerImage)
    ∧ (mergeConfigs b a).agent.useOutputsDiscard =
      (if a.agent.useOutputsDiscard.isSome then a.agent.useOutputsDiscard
       else b.agent.useOutputsDiscard)
    ∧ (mergeConfigs b a).globalThresholds.cpu =
      (if 0 < a.globalThresholds.cpu then a.globalThresholds.cpu else b.globalThresholds.cpu)
    ∧ (mergeConfigs b a).globalThresholds.ram =
      (if 0 < a.globalThresholds.ram then a.globalThresholds.ram else b.globalThresholds.ram)
    ∧ (mergeConfigs b a).globalThresholds.disk =
      (if 0 < a.globalThresholds.disk then a.globalThresholds.disk
       else b.globalThresholds.disk) :=
  ⟨rfl, rfl, rfl, rfl, rfl, rfl, rfl, rfl, rfl, rfl⟩

/-- C7 (code bug): `GenerateTelegrafConfigs` names the per-monitor output file
from `strings.ToLower(strings.ReplaceAll(name, " ", "-"))` instead of
`SanitizeFilename`, so for the name `"My VM's CPU %!!"` the file-name
component keeps the apostrophe, percent and exclamation marks — characters
outside `[a-z0-9_-]` — while `SanitizeFilename` (used for the same file name
by the repository's monolithic variant of the generator) yields the compliant
`"my-vm-s-cpu"`. -/
theorem c7_filename_sanitization_divergence :
    telegrafSafeName c7InputName =
      String.mk ['m', 'y', Char.ofNat 45, 'v', 'm', Char.ofNat 39, 's', Char.ofNat 45,
        'c', 'p', 'u', Char.ofNat 45, '%', '!', '!']
    ∧ (telegrafSafeName c7InputName).toList.all saneChar = false
    ∧ SanitizeFilename c7InputName = "my-vm-s-cpu"
    ∧ (SanitizeFilename c7InputName).toList.all saneChar = true
    ∧ (SanitizeFilename c7InputName).toList.length ≤ 50
    ∧ SanitizeFilename c7InputName ≠ "" := by
  decide

/-- C10: the push-metric command reports "down" exactly when the parsed value
strictly exceeds the effective threshold (a value equal to the threshold
reports "up"), and the effective threshold is 90 whenever the named push
monitor is absent from the legacy monitor list or declares no positive
threshold. -/
theorem c10_push_status_threshold (monitors : List MonitorConfig) (name : String)
    (value : Rat) :
    (pushStatus value (effectiveThreshold monitors name) = "down" ↔
      effectiveThreshold monitors name < value)
    ∧ (value = effectiveThreshold monitors name →
      pushStatus value (effectiveThreshold monitors name) = "up")
    ∧ (monitors.find? (fun m => m.type == "push" && m.name == name) = none →
      effectiveThreshold monitors name = 90)
    ∧ (∀ m, monitors.find? (fun m2 => m2.type == "push" && m2.name == name) = some m →
      ¬ 0 < m.threshold → effectiveThreshold monitors name = 90) := by
  refine ⟨?_, ?_, ?_, ?_⟩
  · unfold pushStatus
    split_ifs with h <;> simp [h]
  · intro he
    unfold pushStatus
    rw [he]
    simp
  · intro h
    unfold effectiveThreshold
    rw [h]
  · intro m hm hth
    unfold effectiveThreshold
    rw [hm]
    simp [hth]

/-- Concrete witness for `c10_push_status_threshold`: with no matching legacy
monitor the threshold is 90 and a value equal to it reports "up". -/
theorem c10_push_status_threshold_witness :
    pushStatus 90 (effectiveThreshold [] "CPU") = "up" ∧
    effectiveThreshold [] "CPU" = 90 :=
  ⟨(c10_push_status_threshold [] "CPU" 90).2.1 (by decide),
   (c10_push_status_threshold [] "CPU" 90).2.2.1 (by decide)⟩

theorem groupDescNeedsUpdate_iff (c d : Option String) :
    groupDescNeedsUpdate c d = true ↔ c ≠ d := by
  cases c
  all_goals cases d
  all_goals simp [groupDescNeedsUpdate]

/-- Characterization of the group update step for an existing group whose
detail fetch succeeds: exactly one update call, issued exactly when the
description or the resolved notification ids differ, always carrying the
desired description and the resolved notification ids. -/
theorem provisionGroupUpdate_spec (rs : RemoteState) (groupID : Int) (g : GroupConfig)
    (cur : RemoteBase) (hfetch : fetchGroup rs groupID = some cur) :
    provisionGroupUpdate rs groupID g =
      (if cur.description ≠ g.description ∨ cur.notificationIDs ≠ groupTarget rs g then
        [KumaAction.updateGroup groupID g.description (groupTarget rs g)]
      else []) := by
  unfold provisionGroupUpdate
  rw [hfetch]
  by_cases hd : cur.description = g.description
  · have hrefl : groupDescNeedsUpdate g.description g.description = false := by
      rw [← Bool.not_eq_true, groupDescNeedsUpdate_iff]
      simp
    by_cases hn : cur.notificationIDs = groupTarget rs g
    · simp [hd, hrefl, hn]
    · simp [hd, hrefl, hn]
  · have htrue : groupDescNeedsUpdate cur.description g.description = true := by
      rw [groupDescNeedsUpdate_iff]
      exact hd
    by_cases hn : cur.notificationIDs = groupTarget rs g
    · simp [htrue, hd, hn]
    · simp [htrue, hd, hn]

/-- C2 (amended): for an existing group the update call is issued exactly when
description or resolved notification ids differ, as the claim states; for a
matched push or HTTP monitor the update call is issued exactly when the remote
description is missing, the desired description is present and differs, or the
resolved notification-id list differs — in particular, when the remote
description is present and matches the desired one and the notification ids
match, no update call is made, but a monitor whose remote description is nil
receives an update call even when the desired description is also nil. -/
theorem c2_update_only_when_changed (rs : RemoteState) (monID groupID : Int)
    (m : MonitorConfig) (gids : List Int) (g : GroupConfig) :
    (∀ cur, fetchGroup rs groupID = some cur →
      (provisionGroupUpdate rs groupID g = [] ↔
        cur.description = g.description ∧ cur.notificationIDs = groupTarget rs g))
    ∧ (∀ push, m.type = "push" → fetchPush rs monID = some push →
      ((push.base.description.isSome ∧
          (m.description.isSome → m.description = push.base.description) ∧
          push.base.notificationIDs = updateTarget rs m gids) →
        updateMonitorBase rs monID m gids = .ok (false, []))
      ∧ ((push.base.description = none ∨
          (m.description.isSome ∧ m.description ≠ push.base.description) ∨
          push.base.notificationIDs ≠ updateTarget rs m gids) →
        ∃ d, updateMonitorBase rs monID m gids =
          .ok (true, [KumaAction.updatePush monID push.pushToken d
            (updateTarget rs m gids)])))
    ∧ (∀ hm, m.type = "http" → fetchHTTP rs monID = some hm →
      ((hm.base.description.isSome ∧
          (m.description.isSome → m.description = hm.base.description) ∧
          hm.base.notificationIDs = updateTarget rs m gids) →
        updateMonitorBase rs monID m gids = .ok (false, []))
      ∧ ((hm.base.description = none ∨
          (m.description.isSome ∧ m.description ≠ hm.base.description) ∨
          hm.base.notificationIDs ≠ updateTarget rs m gids) →
        ∃ d, updateMonitorBase rs monID m gids =
          .ok (true, [KumaAction.updateHTTP monID d (updateTarget rs m gids)]))) := by
  refine ⟨?_, ?_, ?_⟩
  · intro cur hfetch
    rw [provisionGroupUpdate_spec rs groupID g cur hfetch]
    by_cases h : cur.description ≠ g.description ∨ cur.notificationIDs ≠ groupTarget rs g
    · rw [if_pos h]
      constructor
      · intro he
        simp at he
      · rintro ⟨h1, h2⟩
        rcases h with hc | hc
        · exact absurd h1 hc
        · exact absurd h2 hc
    · rw [if_neg h]
      push_neg at h
      simp [h.1, h.2]
  · intro push htype hfetch
    constructor
    · rintro ⟨h1, h2, h3⟩
      have hd : descNeedsUpdate push.base.description m.description = false :=
        (descNeedsUpdate_eq_false_iff _ _).mpr ⟨h1, h2⟩
      rw [updateMonitorBase_push_spec rs monID m gids push htype hfetch]
      simp [hd, h3]
    · intro hor
      have hd : descNeedsUpdate push.base.description m.description = true ∨
          push.base.notificationIDs ≠ updateTarget rs m gids := by
        rcases hor with h | h | h
        · exact Or.inl ((descNeedsUpdate_eq_true_iff _ _).mpr (Or.inl h))
        · exact Or.inl ((descNeedsUpdate_eq_true_iff _ _).mpr (Or.inr h))
        · exact Or.inr h
      rw [updateMonitorBase_push_spec rs monID m gids push htype hfetch]
      exact ⟨_, by rw [if_pos hd]⟩
  · intro hm htype hfetch
    constructor
    · rintro ⟨h1, h2, h3⟩
      have hd : descNeedsUpdate hm.base.description m.description = false :=
        (descNeedsUpdate_eq_false_iff _ _).mpr ⟨h1, h2⟩
      rw [updateMonitorBase_http_spec rs monID m gids hm htype hfetch]
      simp [hd, h3]
    · intro hor
      have hd : descNeedsUpdate hm.base.description m.description = true ∨
          hm.base.notificationIDs ≠ updateTarget rs m gids := by
        rcases hor with h | h | h
        · exact Or.inl ((descNeedsUpdate_eq_true_iff _ _).mpr (Or.inl h))
        · exact Or.inl ((descNeedsUpdate_eq_true_iff _ _).mpr (Or.inr h))
        · exact Or.inr h
      rw [updateMonitorBase_http_spec rs monID m gids hm htype hfetch]
      exact ⟨_, by rw [if_pos hd]⟩

/-- C2 counterexample: the desired description (nil) and notification ids
(empty) equal the remote entity's current values, yet `UpdateMonitorBase`
marks the monitor updated and issues an update call, because its description
test fires whenever the remote description is nil. -/
theorem c2_counterexample_nil_description :
    (fetchPush c2rs 1).map (fun p => p.base.description) = some c2m.description
    ∧ (fetchPush c2rs 1).map (fun p => p.base.notificationIDs) =
      some (updateTarget c2rs c2m [])
    ∧ updateMonitorBase c2rs 1 c2m [] =
      .ok (true, [KumaAction.updatePush 1 "tok" none []]) := by
  decide

/-- Concrete witness for `c2_update_only_when_changed`: when remote and
desired values already match (and the remote description is present), no
update call is issued. -/
theorem c2_update_only_when_changed_witness :
    updateMonitorBase c2wrs 2 c2wm [5] = .ok (false, []) :=
  ((c2_update_only_when_changed c2wrs 2 0 c2wm [5] ⟨"", none, []⟩).2.1
    ⟨⟨2, "W", none, some "d", [5]⟩, "t2"⟩
    (by decide) (by decide)).1 ⟨by decide, by decide, by decide⟩

/-- C9 (amended): a legacy monitor whose kind is neither push nor http fails
the whole run with the descriptive error `unsupported legacy type` only on the
creation path (no remote match); when a remote match exists, the update step
merely skips the unsupported kind with a warning and the run continues with no
remote write. -/
theorem c9_unsupported_kind (rs : RemoteState) (g2id : List (String × Int))
    (cfg : Config) (newToken : String) (fc : Option RemotePush) (m0 : MonitorConfig)
    (hp : m0.type ≠ "push") (hh : m0.type ≠ "http") :
    (lookupByName rs.monitors m0.name = none →
      provisionLegacyStep rs g2id cfg newToken fc m0 =
        .error ("unsupported legacy type: " ++ m0.type))
    ∧ (∀ ex, lookupByName rs.monitors m0.name = some ex →
      provisionLegacyStep rs g2id cfg newToken fc m0 =
        .ok { mcfg := ResolveMetrics cfg m0, dirty := false, actions := [] }) := by
  have hty : (ResolveMetrics cfg m0).type = m0.type := ResolveMetrics_type cfg m0
  have hna : (ResolveMetrics cfg m0).name = m0.name := ResolveMetrics_name cfg m0
  constructor
  · intro h
    simp only [provisionLegacyStep, hna, h, hty]
    simp [hp, hh]
  · intro ex h
    simp only [provisionLegacyStep, hna, h, hty]
    simp [updateMonitorBase, hty, hp, hh]

/-- C9 counterexample: a declared legacy monitor of unsupported kind "tcp"
that matches an existing remote monitor does not fail the run — the step
returns success with no remote write, contradicting the claim that the run
fails for matched monitors too. -/
theorem c9_counterexample_matched_unsupported :
    c9m.type ≠ "push" ∧ c9m.type ≠ "http"
    ∧ lookupByName c9rs.monitors c9m.name = some ⟨2, "L", none, none, []⟩
    ∧ provisionLegacyStep c9rs [] Config.zero "t" none c9m =
      .ok { mcfg := ResolveMetrics Config.zero c9m, dirty := false, actions := [] } := by
  decide

/-- Concrete witness for `c9_unsupported_kind`: with no remote match the run
fails with the descriptive error; with a match it continues quietly. -/
theorem c9_unsupported_kind_witness :
    provisionLegacyStep c9rsEmpty [] Config.zero "t" none c9m =
      .error ("unsupported legacy type: " ++ c9m.type)
    ∧ provisionLegacyStep c9rs [] Config.zero "t" none c9m =
      .ok { mcfg := ResolveMetrics Config.zero c9m, dirty := false, actions := [] } :=
  ⟨(c9_unsupported_kind c9rsEmpty [] Config.zero "t" none c9m
      (by decide) (by decide)).1 (by decide),
   (c9_unsupported_kind c9rs [] Config.zero "t" none c9m
      (by decide) (by decide)).2 ⟨2, "L", none, none, []⟩ (by decide)⟩

/-- C1 (amended): for a push monitor matching an existing remote entity, when
the re-fetched remote push token is non-empty and differs from the locally
stored token, the step adopts the remote token into the local entry, reports
the configuration dirty, and issues no create call — every remote write it
makes is an update of the matched entity that carries the remote entity's own
token, never the local one. -/
theorem c1_remote_token_authoritative (rs : RemoteState) (g2id : List (String × Int))
    (cfg : Config) (newToken : String) (fc : Option RemotePush) (m0 : MonitorConfig)
    (existing : RemoteBase) (push : RemotePush)
    (hex : pushLookup rs g2id (ResolveMetrics cfg { m0 with type := "push" }) =
      some existing)
    (hfetch : fetchPush rs existing.id = some push)
    (htok : push.pushToken ≠ "")
    (hdiff : m0.pushToken ≠ push.pushToken) :
    (provisionPushStep rs g2id cfg newToken fc m0).mcfg.pushToken = push.pushToken
    ∧ (provisionPushStep rs g2id cfg newToken fc m0).dirty = true
    ∧ ∀ a ∈ (provisionPushStep rs g2id cfg newToken fc m0).actions,
        a.isCreate = false ∧
        ∃ d n, a = KumaAction.updatePush existing.id push.pushToken d n := by
  have hMp : (ResolveMetrics cfg { m0 with type := "push" }).pushToken = m0.pushToken :=
    ResolveMetrics_pushToken cfg _
  have hMt : (ResolveMetrics cfg { m0 with type := "push" }).type = "push" :=
    ResolveMetrics_type cfg _
  have hMdiff : (ResolveMetrics cfg { m0 with type := "push" }).pushToken ≠
      push.pushToken := by
    rw [hMp]
    exact hdiff
  have hMt2 : ({ ResolveMetrics cfg { m0 with type := "push" } with
      pushToken := push.pushToken } : MonitorConfig).type = "push" := hMt
  have hstep : provisionPushStep rs g2id cfg newToken fc m0 =
      { mcfg := { ResolveMetrics cfg { m0 with type := "push" } with
          pushToken := push.pushToken },
        dirty := true,
        actions :=
          match updateMonitorBase rs existing.id
              { ResolveMetrics cfg { m0 with type := "push" } with
                pushToken := push.pushToken }
              (updateTarget rs
                { ResolveMetrics cfg { m0 with type := "push" } with
                  pushToken := push.pushToken } []) with
          | .ok r => r.2
          | .error _ => [] } := by
    unfold provisionPushStep
    simp only [hex, hfetch, updateTarget]
    rw [if_pos ⟨htok, hMdiff⟩]
  rw [hstep]
  refine ⟨rfl, rfl, ?_⟩
  intro a ha
  rw [updateMonitorBase_push_spec rs existing.id _ _ push hMt2 hfetch] at ha
  by_cases hc : descNeedsUpdate push.base.description
      ({ ResolveMetrics cfg { m0 with type := "push" } with
        pushToken := push.pushToken } : MonitorConfig).description = true ∨
      push.base.notificationIDs ≠ updateTarget rs
        { ResolveMetrics cfg { m0 with type := "push" } with
          pushToken := push.pushToken }
        (updateTarget rs
          { ResolveMetrics cfg { m0 with type := "push" } with
            pushToken := push.pushToken } [])
  · rw [if_pos hc] at ha
    simp at ha
    subst ha
    exact ⟨rfl, _, _, rfl⟩
  · rw [if_neg hc] at ha
    simp at ha

/-- Concrete witness for `c1_remote_token_authoritative`: the claim's own
scenario — remote has "CPU" under group G with token "abc123", the local
entry's token is empty; afterwards the local token is "abc123", the
configuration is dirty, and no create call was made. -/
theorem c1_remote_token_authoritative_witness :
    (provisionPushStep c1wrs [("G", 3)] Config.zero "new" none c1wm).mcfg.pushToken =
      "abc123"
    ∧ (provisionPushStep c1wrs [("G", 3)] Config.zero "new" none c1wm).dirty = true
    ∧ ∀ a ∈ (provisionPushStep c1wrs [("G", 3)] Config.zero "new" none c1wm).actions,
        a.isCreate = false ∧
        ∃ d n, a = KumaAction.updatePush 7 "abc123" d n :=
  c1_remote_token_authoritative c1wrs [("G", 3)] Config.zero "new" none c1wm
    ⟨7, "CPU", some 3, none, []⟩ ⟨⟨7, "CPU", some 3, none, []⟩, "abc123"⟩
    (by decide) (by decide) (by decide) (by decide)

/-- C1 counterexample: when the re-fetched remote token is empty it differs
from the locally stored token "abc", yet the local token is left at "abc" and
the configuration is not marked dirty — the adoption is guarded by the remote
token being non-empty, which the claim does not state. -/
theorem c1_counterexample_empty_remote_token :
    (fetchPush c1rs 7).map (fun p => p.pushToken) = some ""
    ∧ c1m.pushToken ≠ ""
    ∧ (provisionPushStep c1rs [("G", 3)] Config.zero "new" none c1m).mcfg.pushToken =
      "abc"
    ∧ (provisionPushStep c1rs [("G", 3)] Config.zero "new" none c1m).dirty = false := by
  decide

theorem charListLe_total : ∀ a b : List Char,
    charListLe a b = true ∨ charListLe b a = true := by
  intro a
  induction a with
  | nil =>
    intro b
    left
    rfl
  | cons a as ih =>
    intro b
    cases b with
    | nil =>
      right
      rfl
    | cons b bs =>
      unfold charListLe
      rcases Nat.lt_trichotomy a.toNat b.toNat with h | h | h
      · left
        simp [h]
      · have h1 : ¬ a.toNat < b.toNat := by omega
        have h2 : ¬ b.toNat < a.toNat := by omega
        rcases ih bs with hr | hr
        · left
          simp [h1, h2, hr]
        · right
          simp [h1, h2, hr]
      · right
        simp [h]

theorem charListLe_trans : ∀ a b c : List Char,
    charListLe a b = true → charListLe b c = true → charListLe a c = true := by
  intro a
  induction a with
  | nil =>
    intro b c _ _
    rfl
  | cons a as ih =>
    intro b c hab hbc
    cases b with
    | nil => simp [charListLe] at hab
    | cons b bs =>
      cases c with
      | nil => simp [charListLe] at hbc
      | cons c cs =>
        unfold charListLe at hab hbc ⊢
        rcases Nat.lt_trichotomy a.toNat b.toNat with h1 | h1 | h1
        · rcases Nat.lt_trichotomy b.toNat c.toNat with h2 | h2 | h2
          · have h3 : a.toNat < c.toNat := h1.trans h2
            simp [h3]
          · have h3 : a.toNat < c.toNat := by omega
            simp [h3]
          · have h4 : ¬ b.toNat < c.toNat := by omega
            simp [h4, h2] at hbc
        · rcases Nat.lt_trichotomy b.toNat c.toNat with h2 | h2 | h2
          · have h3 : a.toNat < c.toNat := by omega
            simp [h3]
          · have hx1 : ¬ a.toNat < b.toNat := by omega
            have hx2 : ¬ b.toNat < a.toNat := by omega
            have hy1 : ¬ b.toNat < c.toNat := by omega
            have hy2 : ¬ c.toNat < b.toNat := by omega
            have hz1 : ¬ a.toNat < c.toNat := by omega
            have hz2 : ¬ c.toNat < a.toNat := by omega
            simp [hx1, hx2] at hab
            simp [hy1, hy2] at hbc
            simp [hz1, hz2]
            exact ih bs cs hab hbc
          · have h4 : ¬ b.toNat < c.toNat := by omega
            simp [h4, h2] at hbc
        · have h4 : ¬ a.toNat < b.toNat := by omega
          simp [h4, h1] at hab

theorem diskFold_mem (ms : List MonitorConfig) : ∀ (acc : List String) (s : String),
    s ∈ ms.foldl diskStep acc ↔
      s ∈ acc ∨ s ∈ (ms.filter (fun m => m.metric == "disk" && m.filesystem != "")).map
        (fun m => goTrimSpace m.filesystem) := by
  induction ms with
  | nil =>
    intro acc s
    simp
  | cons m ms ih =>
    intro acc s
    rw [List.foldl_cons, ih]
    by_cases hc : (m.metric == "disk" && m.filesystem != "") = true
    · simp only [List.filter_cons, hc, if_true]
      simp only [List.map_cons, List.mem_cons]
      unfold diskStep
      rw [if_pos hc]
      by_cases hmem : acc.contains (goTrimSpace m.filesystem) = true
      · rw [if_pos hmem]
        have hmem2 : goTrimSpace m.filesystem ∈ acc := by simpa using hmem
        constructor
        · tauto
        · rintro (h | h | h)
          · exact Or.inl h
          · rw [h]
            exact Or.inl hmem2
          · exact Or.inr h
      · rw [if_neg hmem]
        simp only [List.mem_append, List.mem_singleton]
        tauto
    · unfold diskStep
      rw [if_neg hc]
      simp [List.filter_cons, hc]

theorem diskFold_nodup (ms : List MonitorConfig) : ∀ acc : List String,
    acc.Nodup → (ms.foldl diskStep acc).Nodup := by
  induction ms with
  | nil =>
    intro acc h
    simpa using h
  | cons m ms ih =>
    intro acc h
    rw [List.foldl_cons]
    apply ih
    unfold diskStep
    split_ifs with h1 h2
    · exact h
    · have h3 : goTrimSpace m.filesystem ∉ acc := by simpa using h2
      simp [List.nodup_append, h, h3]
    · exact h

theorem diskFilesystems_trim (cfg : Config)
    (htrim : ∀ m ∈ telegrafMonitors cfg, goTrimSpace m.filesystem = m.filesystem) :
    ((telegrafMonitors cfg).filter
        (fun m => m.metric == "disk" && m.filesystem != "")).map
      (fun m => goTrimSpace m.filesystem) = diskFilesystems cfg := by
  unfold diskFilesystems
  apply List.map_congr_left
  intro m hm
  exact htrim m (List.mem_filter.mp hm).1

/-- C8: drop-in derivation emits at most one input descriptor per metric kind
regardless of how many monitors use that kind; when the considered disk
monitors contribute any filesystem there is exactly one disk-input descriptor,
and every disk-input descriptor's mount-point list is the lexicographically
sorted, duplicate-free list holding exactly the disk monitors' filesystem
paths (stated for filesystem paths invariant under whitespace trimming, as
paths are). -/
theorem c8_disk_input_aggregation (cfg : Config)
    (htrim : ∀ m ∈ telegrafMonitors cfg, goTrimSpace m.filesystem = m.filesystem) :
    ((derivedInputs cfg).countP isCpuInput ≤ 1
      ∧ (derivedInputs cfg).countP isMemInput ≤ 1
      ∧ (derivedInputs cfg).countP isDockerInput ≤ 1
      ∧ (derivedInputs cfg).countP isDiskInput ≤ 1)
    ∧ (diskFilesystems cfg ≠ [] → (derivedInputs cfg).countP isDiskInput = 1)
    ∧ (∀ ms, TelegrafInput.disk ms ∈ derivedInputs cfg →
        ms = sortStrings (diskMountPoints cfg)
        ∧ ms.Nodup
        ∧ ms.Sorted goStrLe
        ∧ (∀ s, s ∈ ms ↔ s ∈ diskFilesystems cfg)) := by
  have hmemMP : ∀ s, s ∈ diskMountPoints cfg ↔ s ∈ diskFilesystems cfg := by
    intro s
    unfold diskMountPoints
    rw [diskFold_mem]
    rw [diskFilesystems_trim cfg htrim]
    simp
  have hnodupMP : (diskMountPoints cfg).Nodup :=
    diskFold_nodup (telegrafMonitors cfg) [] List.nodup_nil
  have hne : diskFilesystems cfg ≠ [] → diskMountPoints cfg ≠ [] := by
    intro h hcon
    rcases List.exists_mem_of_ne_nil _ h with ⟨s, hs⟩
    have hmem := (hmemMP s).mpr hs
    rw [hcon] at hmem
    simp at hmem
  refine ⟨⟨?_, ?_, ?_, ?_⟩, ?_, ?_⟩
  · unfold derivedInputs
    split_ifs
    all_goals simp [List.countP_append, List.countP_cons, List.countP_nil, isCpuInput,
      isMemInput, isDockerInput, isDiskInput]
  · unfold derivedInputs
    split_ifs
    all_goals simp [List.countP_append, List.countP_cons, List.countP_nil, isCpuInput,
      isMemInput, isDockerInput, isDiskInput]
  · unfold derivedInputs
    split_ifs
    all_goals simp [List.countP_append, List.countP_cons, List.countP_nil, isCpuInput,
      isMemInput, isDockerInput, isDiskInput]
  · unfold derivedInputs
    split_ifs
    all_goals simp [List.countP_append, List.countP_cons, List.countP_nil, isCpuInput,
      isMemInput, isDockerInput, isDiskInput]
  · intro h
    have h2 := hne h
    unfold derivedInputs
    rw [if_pos h2]
    split_ifs
    all_goals simp [List.countP_append, List.countP_cons, List.countP_nil, isCpuInput,
      isMemInput, isDockerInput, isDiskInput]
  · intro ms hms
    unfold derivedInputs at hms
    rw [List.mem_append, List.mem_append, List.mem_append] at hms
    have h1 : TelegrafInput.disk ms ∉
        (if (neededMetrics cfg).contains "cpu" then [TelegrafInput.cpu] else []) := by
      split_ifs
      all_goals simp
    have h2 : TelegrafInput.disk ms ∉
        (if (neededMetrics cfg).contains "mem" then [TelegrafInput.mem] else []) := by
      split_ifs
      all_goals simp
    have h3 : TelegrafInput.disk ms ∉
        (if (neededMetrics cfg).any (fun k => goContains (goToLower k) "docker") then
          [TelegrafInput.docker] else []) := by
      split_ifs
      all_goals simp
    rcases hms with ((h | h) | h) | h
    · exact absurd h h1
    · exact absurd h h2
    · exact absurd h h3
    · have hms2 : ms = sortStrings (diskMountPoints cfg) := by
        by_cases hd : diskMountPoints cfg ≠ []
        · rw [if_pos hd] at h
          simpa using h
        · rw [if_neg hd] at h
          simp at h
      subst hms2
      refine ⟨rfl, ?_, ?_, ?_⟩
      · exact (List.perm_insertionSort goStrLe (diskMountPoints cfg)).nodup_iff.mpr hnodupMP
      · haveI : IsTotal String goStrLe :=
          ⟨fun a b => charListLe_total a.toList b.toList⟩
        haveI : IsTrans String goStrLe :=
          ⟨fun a b c => charListLe_trans a.toList b.toList c.toList⟩
        exact List.sorted_insertionSort goStrLe (diskMountPoints cfg)
      · intro s
        unfold sortStrings
        rw [List.mem_insertionSort]
        exact hmemMP s

/-- Concrete witness for `c8_disk_input_aggregation`: the claim's own example —
disk monitors with filesystems "/mnt/data/uptime-kuma-test", "/", "/" derive
exactly one disk input whose mount-point set holds "/" and
"/mnt/data/uptime-kuma-test", deduplicated and sorted. -/
theorem c8_disk_input_aggregation_witness :
    derivedInputs c8cfg = [TelegrafInput.disk ["/", "/mnt/data/uptime-kuma-test"]]
    ∧ (derivedInputs c8cfg).countP isDiskInput = 1
    ∧ ∀ s, s ∈ sortStrings (diskMountPoints c8cfg) ↔ s ∈ diskFilesystems c8cfg :=
  ⟨by decide,
   (c8_disk_input_aggregation c8cfg (by decide)).2.1 (by decide),
   fun s => ((c8_disk_input_aggregation c8cfg (by decide)).2.2
      (sortStrings (diskMountPoints c8cfg)) (by decide)).2.2.2 s⟩

end UptimeKumaAgent
